import Mathlib

/-!
Verification of the Wiki-Quiz-App client core: the assessment engine
(TakeQuiz.jsx) and the retrieval orchestration (GenerateQuiz.jsx and the
past-quizzes history component).  JavaScript state is embedded as explicit
state records, fetch outcomes as an explicit outcome type, and the one
numeric operation sensitive to IEEE semantics (division by a possibly zero
question count) through a small JavaScript-number model with NaN and the
infinities.
-/

namespace WikiQuiz

/-! ## Data model -/

/-- One multiple-choice item, as delivered by the server.  The source reads
the fields `question`, `options`, `answer`, `difficulty`, `explanation`. -/
structure Question where
  question : String
  options : List String
  answer : String
  difficulty : String
  explanation : String
deriving DecidableEq

/-- Optional named-entity record of a quiz (`keyEntities`); each list is
independently optional. -/
structure EntitySet where
  people : Option (List String)
  organizations : Option (List String)
  locations : Option (List String)
deriving DecidableEq

/-- A full quiz as returned by the get-quiz and create-quiz endpoints. -/
structure Quiz where
  id : Nat
  url : String
  title : String
  summary : String
  createdAt : String
  sections : List String
  keyEntities : Option EntitySet
  relatedTopics : List String
  questions : List Question
deriving DecidableEq

/-- A summary row of the history listing; the source reads `id`, `title`,
`url`, `question_count`, `created_at`. -/
structure QuizSummary where
  id : Nat
  url : String
  title : String
  question_count : Nat
  created_at : String
deriving DecidableEq

/-- The `{ title }`-shaped payload of the preview endpoint. -/
structure Preview where
  title : String
deriving DecidableEq

/-- Outcome of one fetch as observed by the client code: a success body, a
non-ok response whose JSON body may carry a `detail` string, or a thrown
network/parse error carrying a message. -/
inductive FetchOutcome (α : Type) where
  | ok (data : α)
  | httpErr (detail : Option String)
  | netErr (msg : String)
deriving DecidableEq

/-! ## JavaScript number model

Only what the two divisions in TakeQuiz.jsx need: rationals plus NaN and
the infinities, with JS division and multiplication semantics. -/

inductive JsNum where
  | num (val : ℚ)
  | nan
  | inf
  | negInf
deriving DecidableEq

/-- JS division of two finite numbers: `0/0` is NaN, `x/0` for nonzero `x`
is a signed infinity, otherwise exact division. -/
def jsDiv (a b : ℚ) : JsNum :=
  if b = 0 then
    if a = 0 then JsNum.nan else if 0 < a then JsNum.inf else JsNum.negInf
  else JsNum.num (a / b)

/-- JS multiplication of a number by a finite constant. -/
def jsMul (x : JsNum) (c : ℚ) : JsNum :=
  match x with
  | JsNum.num a => JsNum.num (a * c)
  | JsNum.nan => JsNum.nan
  | JsNum.inf => if 0 < c then JsNum.inf else if c = 0 then JsNum.nan else JsNum.negInf
  | JsNum.negInf => if 0 < c then JsNum.negInf else if c = 0 then JsNum.nan else JsNum.inf

/-- JS strict equality of a number against a finite constant; NaN and the
infinities compare unequal to every finite constant. -/
def jsEqNum (x : JsNum) (c : ℚ) : Bool :=
  match x with
  | JsNum.num a => decide (a = c)
  | _ => false

/-- JS `>=` against a finite constant; false on NaN, true on `Infinity`. -/
def jsGe (x : JsNum) (c : ℚ) : Bool :=
  match x with
  | JsNum.num a => decide (c ≤ a)
  | JsNum.inf => true
  | _ => false

/-! ## Assessment engine (TakeQuiz.jsx)

The component state is `answers` (a JS object keyed by question index),
`submitted`, and `score`.  `submitted = false` is the InProgress state of
the session, `submitted = true` the Submitted state.  The answers object is
embedded as an association list with unique keys in insertion order, which
is exactly the key model of a JS object with integer-like keys. -/

/-- Property lookup `answers[i]`: `some` selection, or `none` for the JS
`undefined` of a missing key. -/
def objGet : List (Nat × String) → Nat → Option String
  | [], _ => none
  | p :: rest, k => if p.1 = k then some p.2 else objGet rest k

/-- The object spread `{ ...prev, [qIndex]: option }`: overwrite the value
of an existing key in place, else append the new key at the end. -/
def objInsert : List (Nat × String) → Nat → String → List (Nat × String)
  | [], k, v => [(k, v)]
  | p :: rest, k, v => if p.1 = k then (k, v) :: rest else p :: objInsert rest k v

/-- The state of one quiz-taking session. -/
structure QuizState where
  answers : List (Nat × String)
  submitted : Bool
  score : Nat
deriving DecidableEq

/-- Initial component state: empty answers, not submitted, score 0. -/
def initQuizState : QuizState := ⟨[], false, 0⟩

/-- `handleSelect(qIndex, option)`: early-return when submitted, else merge
the selection into the answers object. -/
def handleSelect (qIndex : Nat) (option : String) (s : QuizState) : QuizState :=
  if s.submitted then s
  else { s with answers := objInsert s.answers qIndex option }

/-- The `questions.forEach((q, i) => { if (answers[i] === q.answer)
correct++ })` loop of `handleSubmit`, counting from index `i`. -/
def countCorrect (answers : List (Nat × String)) : List Question → Nat → Nat
  | [], _ => 0
  | q :: rest, i =>
      (if objGet answers i = some q.answer then 1 else 0) + countCorrect answers rest (i + 1)

/-- `handleSubmit()`: store the count of correct answers as the score and
mark the session submitted. -/
def handleSubmit (questions : List Question) (s : QuizState) : QuizState :=
  { s with score := countCorrect s.answers questions 0, submitted := true }

/-- `handleRetry()`: clear the answers object, leave the submitted state,
and reset the score. -/
def handleRetry (s : QuizState) : QuizState :=
  { s with answers := [], submitted := false, score := 0 }

/-- Replay a sequence of user selections in order. -/
def applySelections (ops : List (Nat × String)) (s : QuizState) : QuizState :=
  ops.foldl (fun t p => handleSelect p.1 p.2 t) s

/-- `answeredCount`: `Object.keys(answers).length`. -/
def answeredCount (s : QuizState) : Nat := s.answers.length

/-- `progressPercent = (answeredCount / totalQuestions) * 100`, an
unguarded JS division. -/
def progressPercent (answeredCount totalQuestions : Nat) : JsNum :=
  jsMul (jsDiv (answeredCount : ℚ) (totalQuestions : ℚ)) 100

/-- The `pct` of `getScoreMessage`: `(score / totalQuestions) * 100`. -/
def scorePercent (score totalQuestions : Nat) : JsNum :=
  jsMul (jsDiv (score : ℚ) (totalQuestions : ℚ)) 100

/-- `getScoreMessage()`: the qualitative feedback tier chosen by fixed
thresholds on `pct`. -/
def getScoreMessage (score totalQuestions : Nat) : String :=
  let pct := scorePercent score totalQuestions
  if jsEqNum pct 100 then "🏆 Perfect score! Outstanding!"
  else if jsGe pct 80 then "🌟 Excellent work! Very impressive!"
  else if jsGe pct 60 then "👍 Good job! Keep learning!"
  else if jsGe pct 40 then "📚 Not bad! Review the article for more details."
  else "💪 Keep trying! Read the article and try again."

/-! ## JavaScript string primitives

`url.trim()` and `String.prototype.includes` are embedded at the
character-list level. -/

/-- Whether `pat` is a leading segment of `s`. -/
def isPref : List Char → List Char → Bool
  | [], _ => true
  | _ :: _, [] => false
  | a :: as, b :: bs => (a == b) && isPref as bs

/-- Whether `pat` occurs contiguously anywhere in the second list. -/
def hasSub (pat : List Char) : List Char → Bool
  | [] => pat.isEmpty
  | c :: rest => isPref pat (c :: rest) || hasSub pat rest

/-- JS `s.includes(pat)`. -/
def includesSub (s pat : String) : Bool := hasSub pat.data s.data

/-- Drop leading and trailing whitespace from a character list. -/
def trimChars (l : List Char) : List Char :=
  ((l.dropWhile Char.isWhitespace).reverse.dropWhile Char.isWhitespace).reverse

/-- JS `s.trim()`. -/
def jsTrim (s : String) : String := String.mk (trimChars s.data)

/-! ## Generation view (GenerateQuiz.jsx) -/

/-- Component state of the generation view. -/
structure GenState where
  url : String
  preview : Option Preview
  quizData : Option Quiz
  loading : Bool
  error : Option String
  previewLoading : Bool
deriving DecidableEq

/-- The wiki-article-path marker tested by `handleUrlBlur`. -/
def wikiMarker : String := "wikipedia.org/wiki/"

/-- The guard of `handleUrlBlur`: a preview request is issued only when the
trimmed input is non-empty and contains the marker. -/
def issuesPreviewCall (url : String) : Bool :=
  let trimmed := jsTrim url
  if trimmed = "" then false else includesSub trimmed wikiMarker

/-- `handleUrlBlur()`: short-circuit to no preview without a request when
the guard fails; otherwise set the preview from an ok response, clear it on
a non-ok response or a thrown error, and drop the preview-loading flag in
the `finally` block.  The shared `error` slot is never touched. -/
def handleUrlBlur (s : GenState) (r : FetchOutcome Preview) : GenState :=
  if issuesPreviewCall s.url = false then { s with preview := none }
  else
    let s1 := { s with previewLoading := true }
    let s2 :=
      match r with
      | FetchOutcome.ok d => { s1 with preview := some d }
      | FetchOutcome.httpErr _ => { s1 with preview := none }
      | FetchOutcome.netErr _ => { s1 with preview := none }
    { s2 with previewLoading := false }

/-- The synchronous prefix of `handleGenerate` once the non-empty guard has
passed: raise the loading flag, clear the error, clear the prior quiz. -/
def handleGenerateStart (s : GenState) : GenState :=
  { s with loading := true, error := none, quizData := none }

/-- `handleGenerate()` run to completion against one fetch outcome: refuse
on an empty trimmed URL; otherwise start, then store the quiz on ok, or the
body's `detail` (JS `||` falls back on a missing or empty detail) on a
non-ok response, or the thrown message on a network error; the `finally`
block drops the loading flag. -/
def handleGenerate (s : GenState) (r : FetchOutcome Quiz) : GenState :=
  if jsTrim s.url = "" then s
  else
    let s1 := handleGenerateStart s
    let s2 :=
      match r with
      | FetchOutcome.ok q => { s1 with quizData := some q }
      | FetchOutcome.httpErr d =>
          { s1 with error := some (match d with
              | some m => if m = "" then "Failed to generate quiz" else m
              | none => "Failed to generate quiz") }
      | FetchOutcome.netErr m => { s1 with error := some m }
    { s2 with loading := false }

/-! ## History view (the past-quizzes component) -/

/-- Component state of the history view. -/
structure PQState where
  quizzes : List QuizSummary
  loading : Bool
  error : Option String
  selectedQuiz : Option Quiz
  modalLoading : Bool
deriving DecidableEq

/-- The synchronous prefix of `fetchHistory`: raise the loading flag and
clear the shared error. -/
def fetchHistoryStart (s : PQState) : PQState :=
  { s with loading := true, error := none }

/-- `fetchHistory()` run to completion against one fetch outcome; a non-ok
response throws the fixed message `Failed to fetch history`. -/
def fetchHistory (s : PQState) (r : FetchOutcome (List QuizSummary)) : PQState :=
  let s1 := fetchHistoryStart s
  let s2 :=
    match r with
    | FetchOutcome.ok data => { s1 with quizzes := data }
    | FetchOutcome.httpErr _ => { s1 with error := some "Failed to fetch history" }
    | FetchOutcome.netErr m => { s1 with error := some m }
  { s2 with loading := false }

/-- The synchronous prefix of `handleDetails`: raise the shared modal
loading flag.  The error slot is deliberately not cleared. -/
def handleDetailsStart (s : PQState) : PQState :=
  { s with modalLoading := true }

/-- The atomic steps of one `handleDetails(id)` invocation, split at its
await points: the synchronous prefix, the resolution of the fetch, and the
`finally` block. -/
inductive DetailEvent where
  | start : DetailEvent
  | resolve : FetchOutcome Quiz → DetailEvent
  | complete : DetailEvent
deriving DecidableEq

/-- Effect of one `handleDetails` step on the shared component state; a
non-ok response throws the fixed message `Failed to fetch quiz details`. -/
def stepDetail (s : PQState) : DetailEvent → PQState
  | DetailEvent.start => handleDetailsStart s
  | DetailEvent.resolve (FetchOutcome.ok q) => { s with selectedQuiz := some q }
  | DetailEvent.resolve (FetchOutcome.httpErr _) =>
      { s with error := some "Failed to fetch quiz details" }
  | DetailEvent.resolve (FetchOutcome.netErr m) => { s with error := some m }
  | DetailEvent.complete => { s with modalLoading := false }

/-- Run an interleaving of `handleDetails` steps over the shared state. -/
def runDetail (l : List DetailEvent) (s : PQState) : PQState := l.foldl stepDetail s

/-- One whole `handleDetails(id)` invocation with no interleaved rival. -/
def handleDetails (s : PQState) (r : FetchOutcome Quiz) : PQState :=
  runDetail [DetailEvent.start, DetailEvent.resolve r, DetailEvent.complete] s

/-- Whether a step writes the selected-quiz slot: only a successful
resolution does. -/
def writesSelected : DetailEvent → Bool
  | DetailEvent.resolve (FetchOutcome.ok _) => true
  | _ => false

instance : Inhabited Question := ⟨⟨"", [], "", "", ""⟩⟩

/-! ### Sample data shared by concrete witnesses -/

def sampleQuestion1 : Question := ⟨"What is 1+1?", ["1", "2", "3", "4"], "2", "easy", "arith"⟩

def sampleQuestion2 : Question := ⟨"Capital of France?", ["Rome", "Paris", "Lyon", "Nice"], "Paris", "medium", "geo"⟩

def sampleQuestions : List Question := [sampleQuestion1, sampleQuestion2]

/-- A session with question 0 answered correctly and question 1 unanswered. -/
def sampleAnswered : QuizState := ⟨[(0, "2")], false, 0⟩

/-- A session over the two sample questions with both indices answered. -/
def sampleFull : QuizState := ⟨[(0, "2"), (1, "Rome")], false, 0⟩

def sampleQuizA : Quiz :=
  ⟨1, "https://en.wikipedia.org/wiki/A", "A", "about A", "2024-01-01", [], none, [],
    [sampleQuestion1]⟩

def sampleQuizB : Quiz :=
  ⟨2, "https://en.wikipedia.org/wiki/B", "B", "about B", "2024-01-02", [], none, [],
    [sampleQuestion2]⟩

/-- Fresh history-view state: nothing loaded, no error, nothing selected. -/
def samplePQ : PQState := ⟨[], false, none, none, false⟩

/-- Fresh generation-view state holding a wiki article URL. -/
def sampleGen : GenState :=
  ⟨"https://en.wikipedia.org/wiki/Alan_Turing", none, none, false, none, false⟩

/-- Generation-view state holding a non-wiki URL. -/
def sampleGenNonWiki : GenState :=
  ⟨"https://example.com/not-wiki", none, none, false, none, false⟩

end WikiQuiz

namespace WikiQuiz

/-! ### Association-list lemmas for the answers object -/

theorem objGet_objInsert_self (m : List (Nat × String)) (k : Nat) (v : String) :
    objGet (objInsert m k v) k = some v := by
  induction m with
  | nil => simp [objInsert, objGet]
  | cons p rest ih =>
      by_cases h : p.1 = k
      · simp [objInsert, h, objGet]
      · simp [objInsert, h, objGet, ih]

theorem objGet_objInsert_ne (m : List (Nat × String)) (k j : Nat) (v : String)
    (h : j ≠ k) : objGet (objInsert m k v) j = objGet m j := by
  have hkj : ¬k = j := fun hh => h hh.symm
  induction m with
  | nil => simp [objInsert, objGet, hkj]
  | cons p rest ih =>
      by_cases hp : p.1 = k
      · have hpj : ¬p.1 = j := fun hh => h (hh ▸ hp)
        simp [objInsert, hp, objGet, hpj, hkj]
      · by_cases hj : p.1 = j
        · simp [objInsert, hp, objGet, hj, hkj, h]
        · simp [objInsert, hp, objGet, hj, ih]

/-- Keys of the answers object after an insert: unchanged when the key is
already present, else the new key is appended. -/
theorem keys_objInsert (m : List (Nat × String)) (k : Nat) (v : String) :
    (objInsert m k v).map Prod.fst = m.map Prod.fst ∨
    ((objInsert m k v).map Prod.fst = m.map Prod.fst ++ [k] ∧
      k ∉ m.map Prod.fst) := by
  induction m with
  | nil => right; simp [objInsert]
  | cons p rest ih =>
      by_cases h : p.1 = k
      · left; simp [objInsert, h]
      · rcases ih with ih | ⟨ih, hk⟩
        · left; simp [objInsert, h, ih]
        · right
          constructor
          · simp [objInsert, h, ih]
          · simp only [List.map_cons, List.mem_cons]
            rintro (rfl | hmem)
            · exact h rfl
            · exact hk hmem

theorem nodup_keys_objInsert (m : List (Nat × String)) (k : Nat) (v : String)
    (h : (m.map Prod.fst).Nodup) : ((objInsert m k v).map Prod.fst).Nodup := by
  rcases keys_objInsert m k v with heq | ⟨heq, hk⟩
  · rw [heq]; exact h
  · rw [heq]
    refine List.Nodup.append h (List.nodup_singleton k) ?_
    intro a ha hb
    rw [List.mem_singleton] at hb
    exact hk (hb ▸ ha)

/-- A key is answered exactly when it occurs among the object's keys. -/
theorem objGet_isSome_iff_mem (m : List (Nat × String)) (k : Nat) :
    (objGet m k).isSome = true ↔ k ∈ m.map Prod.fst := by
  induction m with
  | nil => simp [objGet]
  | cons p rest ih =>
      by_cases h : p.1 = k
      · simp [objGet, h]
      · have hk : ¬k = p.1 := fun hh => h hh.symm
        simp [objGet, h, hk, ih]

/-- The `forEach` scoring loop counts exactly the in-range indices whose
stored selection equals the question's answer. -/
theorem countCorrect_eq_countP (a : List (Nat × String)) (qs : List Question) (k : Nat) :
    countCorrect a qs k =
      (List.range qs.length).countP
        (fun i => decide (objGet a (k + i) = some ((qs.getD i default).answer))) := by
  induction qs generalizing k with
  | nil => simp [countCorrect]
  | cons q rest ih =>
      have hcomp :
          ((fun i => decide (objGet a (k + i) = some (((q :: rest).getD i default).answer)))
              ∘ Nat.succ)
            = fun i => decide (objGet a (k + 1 + i) = some ((rest.getD i default).answer)) := by
        funext i
        have h1 : k + Nat.succ i = k + 1 + i := by omega
        simp only [Function.comp_apply, h1, List.getD_cons_succ]
      rw [countCorrect, List.length_cons, List.range_succ_eq_map,
        List.countP_cons, List.countP_map, hcomp, ih (k + 1)]
      have h0 : k + 0 = k := Nat.add_zero k
      simp only [h0, List.getD_cons_zero, decide_eq_true_eq]
      omega

/-! ## Claim theorems for the assessment engine -/

/-- C1: `submit()` sets the score to the number of indices `i` in
`[0, questionCount)` whose stored selection equals `questions[i].answer` by
exact string equality, and marks the session Submitted; an index with no
stored selection satisfies the counted predicate in no case, so partial
answer sets score the unanswered questions as incorrect. -/
theorem handleSubmit_score_spec (qs : List Question) (s : QuizState) :
    (handleSubmit qs s).score =
      (List.range qs.length).countP
        (fun i => decide (objGet s.answers i = some ((qs.getD i default).answer))) ∧
    (handleSubmit qs s).submitted = true ∧
    ∀ i, objGet s.answers i = none →
      decide (objGet s.answers i = some ((qs.getD i default).answer)) = false := by
  refine ⟨?_, rfl, ?_⟩
  · show countCorrect s.answers qs 0 = _
    rw [countCorrect_eq_countP]
    simp only [Nat.zero_add]
  · intro i h
    simp [h]

/-- Witness for C1 at a concrete session: one correct answer out of two
questions, with question 1 unanswered, scores 1 and ends Submitted. -/
theorem handleSubmit_score_spec_witness :
    (handleSubmit sampleQuestions sampleAnswered).score =
      (List.range sampleQuestions.length).countP
        (fun i => decide (objGet sampleAnswered.answers i =
          some ((sampleQuestions.getD i default).answer))) ∧
    (handleSubmit sampleQuestions sampleAnswered).submitted = true ∧
    (handleSubmit sampleQuestions sampleAnswered).score = 1 := by
  have h := handleSubmit_score_spec sampleQuestions sampleAnswered
  exact ⟨h.1, h.2.1, by decide⟩

/-- C4: after any sequence of selections followed by `submit()`, calling
`retry()` resets the score to 0, empties the answer mapping, and returns
the session to InProgress (`submitted = false`). -/
theorem handleRetry_resets (ops : List (Nat × String)) (qs : List Question) (s : QuizState) :
    (handleRetry (handleSubmit qs (applySelections ops s))).score = 0 ∧
    answeredCount (handleRetry (handleSubmit qs (applySelections ops s))) = 0 ∧
    (handleRetry (handleSubmit qs (applySelections ops s))).submitted = false :=
  ⟨rfl, rfl, rfl⟩

/-- C6: `select` is a no-op when the session is Submitted; in InProgress it
stores the option for the given index, leaves every other index alone,
keeps the keys of the answer mapping duplicate-free (at most one entry per
index), and never changes the submitted state or the score. -/
theorem handleSelect_spec (s : QuizState) (i : Nat) (o : String) :
    (s.submitted = true → handleSelect i o s = s) ∧
    (s.submitted = false →
      objGet (handleSelect i o s).answers i = some o ∧
      (∀ j, j ≠ i → objGet (handleSelect i o s).answers j = objGet s.answers j) ∧
      ((s.answers.map Prod.fst).Nodup → ((handleSelect i o s).answers.map Prod.fst).Nodup)) ∧
    (handleSelect i o s).submitted = s.submitted ∧
    (handleSelect i o s).score = s.score := by
  refine ⟨?_, ?_, ?_, ?_⟩
  · intro h; simp [handleSelect, h]
  · intro h
    refine ⟨?_, ?_, ?_⟩
    · simp [handleSelect, h, objGet_objInsert_self]
    · intro j hj
      simp [handleSelect, h, objGet_objInsert_ne _ _ _ _ hj]
    · intro hn
      simpa [handleSelect, h] using nodup_keys_objInsert s.answers i o hn
  · by_cases h : s.submitted <;> simp [handleSelect, h]
  · by_cases h : s.submitted <;> simp [handleSelect, h]

/-- Witness for C6: selecting option "2" for question 0 in the fresh
InProgress session stores it. -/
theorem handleSelect_spec_witness :
    objGet (handleSelect 0 "2" initQuizState).answers 0 = some "2" :=
  ((handleSelect_spec initQuizState 0 "2").2.1 rfl).1

/-- C2 counterexample: with zero questions and the fresh empty answer
mapping, `progressPercent` is the JS NaN produced by the unguarded `0/0`,
not the value `0` the claim asserts. -/
theorem progressPercent_zero_questions_nan :
    progressPercent (answeredCount initQuizState) ([] : List Question).length = JsNum.nan ∧
    progressPercent (answeredCount initQuizState) ([] : List Question).length ≠ JsNum.num 0 := by
  constructor
  · decide
  · decide

/-- C2 (amended): when `questionCount = 0` the unguarded division makes
`progressPercent` NaN rather than 0; when `questionCount` is positive and
every index in `[0, questionCount)` has a stored selection (the mapping
being key-unique and confined to valid indices), `progressPercent` equals
100. -/
theorem progressPercent_spec (qs : List Question) (s : QuizState)
    (hall : ∀ i, i < qs.length → (objGet s.answers i).isSome = true)
    (hdom : ∀ p ∈ s.answers, p.1 < qs.length)
    (hnd : (s.answers.map Prod.fst).Nodup)
    (hne : qs.length ≠ 0) :
    progressPercent (answeredCount s) qs.length = JsNum.num 100 ∧
    progressPercent 0 0 = JsNum.nan := by
  have hfin : (s.answers.map Prod.fst).toFinset = Finset.range qs.length := by
    ext a
    simp only [List.mem_toFinset, Finset.mem_range]
    constructor
    · intro ha
      rcases List.mem_map.mp ha with ⟨p, hp, rfl⟩
      exact hdom p hp
    · intro ha
      exact (objGet_isSome_iff_mem s.answers a).mp (hall a ha)
  have hlen : answeredCount s = qs.length := by
    have h1 : (s.answers.map Prod.fst).length = qs.length := by
      rw [← List.toFinset_card_of_nodup hnd, hfin, Finset.card_range]
    simpa [answeredCount] using h1
  constructor
  · have hq : (qs.length : ℚ) ≠ 0 := Nat.cast_ne_zero.mpr hne
    rw [hlen]
    simp [progressPercent, jsDiv, hq, jsMul, div_self hq]
  · decide

/-- Witness for C2 (amended): two questions, both answered, gives
`progressPercent = 100`. -/
theorem progressPercent_spec_witness :
    progressPercent (answeredCount sampleFull) sampleQuestions.length = JsNum.num 100 :=
  (progressPercent_spec sampleQuestions sampleFull (by decide) (by decide)
    (by decide) (by decide)).1

/-- C5: for a positive question count and a score within range, the JS
`pct` is the exact rational `score / total * 100`, lies in `[0, 100]`, and
the feedback tier is chosen by the five ordered bands `{100}`, `[80, 100)`,
`[60, 80)`, `[40, 60)`, `[0, 40)`; in particular 3 of 5 questions correct
gives `pct = 60` and the medium tier. -/
theorem getScoreMessage_spec (score total : Nat) (h0 : 0 < total) (hle : score ≤ total) :
    scorePercent score total = JsNum.num ((score : ℚ) / (total : ℚ) * 100) ∧
    (0 : ℚ) ≤ (score : ℚ) / (total : ℚ) * 100 ∧
    (score : ℚ) / (total : ℚ) * 100 ≤ 100 ∧
    ((score : ℚ) / (total : ℚ) * 100 = 100 →
      getScoreMessage score total = "🏆 Perfect score! Outstanding!") ∧
    (80 ≤ (score : ℚ) / (total : ℚ) * 100 → (score : ℚ) / (total : ℚ) * 100 < 100 →
      getScoreMessage score total = "🌟 Excellent work! Very impressive!") ∧
    (60 ≤ (score : ℚ) / (total : ℚ) * 100 → (score : ℚ) / (total : ℚ) * 100 < 80 →
      getScoreMessage score total = "👍 Good job! Keep learning!") ∧
    (40 ≤ (score : ℚ) / (total : ℚ) * 100 → (score : ℚ) / (total : ℚ) * 100 < 60 →
      getScoreMessage score total = "📚 Not bad! Review the article for more details.") ∧
    ((score : ℚ) / (total : ℚ) * 100 < 40 →
      getScoreMessage score total = "💪 Keep trying! Read the article and try again.") ∧
    scorePercent 3 5 = JsNum.num 60 ∧
    getScoreMessage 3 5 = "👍 Good job! Keep learning!" := by
  have ht : (total : ℚ) ≠ 0 := Nat.cast_ne_zero.mpr h0.ne'
  have htpos : (0 : ℚ) < (total : ℚ) := by exact_mod_cast h0
  have hpct : scorePercent score total = JsNum.num ((score : ℚ) / (total : ℚ) * 100) := by
    simp [scorePercent, jsDiv, ht, jsMul]
  have hlo : (0 : ℚ) ≤ (score : ℚ) / (total : ℚ) * 100 := by positivity
  have hhi : (score : ℚ) / (total : ℚ) * 100 ≤ 100 := by
    have h1 : (score : ℚ) / (total : ℚ) ≤ 1 :=
      (div_le_one htpos).mpr (by exact_mod_cast hle)
    linarith
  have h35 : scorePercent 3 5 = JsNum.num 60 := by
    have h5 : ((5 : Nat) : ℚ) ≠ 0 := by norm_num
    simp only [scorePercent, jsDiv, h5, if_neg h5, jsMul]
    norm_num
  have hmsg : getScoreMessage 3 5 = "👍 Good job! Keep learning!" := by
    norm_num [getScoreMessage, h35, jsEqNum, jsGe]
  refine ⟨hpct, hlo, hhi, ?_, ?_, ?_, ?_, ?_, h35, hmsg⟩
  · intro h
    simp [getScoreMessage, hpct, jsEqNum, jsGe, h]
  · intro h1 h2
    have hne : ¬((score : ℚ) / (total : ℚ) * 100 = 100) := by linarith
    simp [getScoreMessage, hpct, jsEqNum, jsGe, hne, h1]
  · intro h1 h2
    have hne : ¬((score : ℚ) / (total : ℚ) * 100 = 100) := by linarith
    have h80 : ¬((80 : ℚ) ≤ (score : ℚ) / (total : ℚ) * 100) := by linarith
    simp [getScoreMessage, hpct, jsEqNum, jsGe, hne, h80, h1]
  · intro h1 h2
    have hne : ¬((score : ℚ) / (total : ℚ) * 100 = 100) := by linarith
    have h80 : ¬((80 : ℚ) ≤ (score : ℚ) / (total : ℚ) * 100) := by linarith
    have h60 : ¬((60 : ℚ) ≤ (score : ℚ) / (total : ℚ) * 100) := by linarith
    simp [getScoreMessage, hpct, jsEqNum, jsGe, hne, h80, h60, h1]
  · intro h1
    have hne : ¬((score : ℚ) / (total : ℚ) * 100 = 100) := by linarith
    have h80 : ¬((80 : ℚ) ≤ (score : ℚ) / (total : ℚ) * 100) := by linarith
    have h60 : ¬((60 : ℚ) ≤ (score : ℚ) / (total : ℚ) * 100) := by linarith
    have h40 : ¬((40 : ℚ) ≤ (score : ℚ) / (total : ℚ) * 100) := by linarith
    simp [getScoreMessage, hpct, jsEqNum, jsGe, hne, h80, h60, h40]

/-- Witness for C5 at the spec scenario: 3 of 5 correct is `pct = 60`,
the medium tier. -/
theorem getScoreMessage_spec_witness :
    getScoreMessage 3 5 = "👍 Good job! Keep learning!" :=
  ((getScoreMessage_spec 3 5 (by decide) (by decide)).2.2.2.2.2.1
    (by norm_num) (by norm_num))

/-! ## Claim theorems for the retrieval orchestration -/

/-- C3 counterexample: from the fresh history-view state, a detail fetch
failing with a server body carrying `detail:"not found"` leaves the fixed
client message in the error slot, not the server-supplied string. -/
theorem handleDetails_ignores_server_detail :
    (handleDetails samplePQ (FetchOutcome.httpErr (some "not found"))).error ≠
      some "not found" := by
  decide

/-- C3 (amended): when a detail fetch fails with a non-ok response, the
shared error slot holds the fixed client message
`Failed to fetch quiz details` — the server-supplied `detail` string is
ignored — and the selected-quiz slot is unchanged from before the call. -/
theorem handleDetails_httpErr_spec (s : PQState) (d : Option String) :
    (handleDetails s (FetchOutcome.httpErr d)).error = some "Failed to fetch quiz details" ∧
    (handleDetails s (FetchOutcome.httpErr d)).selectedQuiz = s.selectedQuiz :=
  ⟨rfl, rfl⟩

/-- C7: `handleUrlBlur` never writes the shared error slot; when the
trimmed input is empty or lacks the wiki-article-path marker it resolves to
no preview independently of any fetch outcome (no request is issued); every
failed request also resolves to no preview; and the spec's non-wiki URL
fails the guard. -/
theorem handleUrlBlur_spec (s : GenState) (r : FetchOutcome Preview) :
    (handleUrlBlur s r).error = s.error ∧
    (issuesPreviewCall s.url = false → handleUrlBlur s r = { s with preview := none }) ∧
    (∀ d, (handleUrlBlur s (FetchOutcome.httpErr d)).preview = none) ∧
    (∀ m, (handleUrlBlur s (FetchOutcome.netErr m)).preview = none) ∧
    issuesPreviewCall "https://example.com/not-wiki" = false := by
  refine ⟨?_, ?_, ?_, ?_, by decide⟩
  · by_cases h : issuesPreviewCall s.url = false
    · simp [handleUrlBlur, h]
    · cases r <;> simp [handleUrlBlur, h]
  · intro h
    simp [handleUrlBlur, h]
  · intro d
    by_cases h : issuesPreviewCall s.url = false <;> simp [handleUrlBlur, h]
  · intro m
    by_cases h : issuesPreviewCall s.url = false <;> simp [handleUrlBlur, h]

/-- Witness for C7: blurring on the non-wiki URL short-circuits to no
preview whatever outcome a request would have had. -/
theorem handleUrlBlur_spec_witness :
    handleUrlBlur sampleGenNonWiki (FetchOutcome.ok ⟨"T"⟩) =
      { sampleGenNonWiki with preview := none } :=
  (handleUrlBlur_spec sampleGenNonWiki (FetchOutcome.ok ⟨"T"⟩)).2.1 (by decide)

/-- C8: `fetchHistory` and `handleGenerate` clear their own prior error in
their synchronous prefix and drop their loading flag on every completion;
`handleDetails` leaves a pre-existing error in place while its request is
in flight. -/
theorem errorClearing_asymmetry (p : PQState) (g : GenState)
    (rh : FetchOutcome (List QuizSummary)) (rg : FetchOutcome Quiz) :
    (fetchHistoryStart p).error = none ∧
    (fetchHistory p rh).loading = false ∧
    (jsTrim g.url ≠ "" →
      (handleGenerateStart g).error = none ∧ (handleGenerate g rg).loading = false) ∧
    (handleDetailsStart p).error = p.error := by
  refine ⟨rfl, ?_, ?_, rfl⟩
  · cases rh <;> rfl
  · intro h
    refine ⟨rfl, ?_⟩
    cases rg <;> simp [handleGenerate, h, handleGenerateStart]

/-- Witness for C8: with a non-empty URL, a completed generation attempt
has its loading flag down. -/
theorem errorClearing_asymmetry_witness :
    (handleGenerate sampleGen (FetchOutcome.ok sampleQuizA)).loading = false :=
  ((errorClearing_asymmetry samplePQ sampleGen (FetchOutcome.ok ([] : List QuizSummary))
    (FetchOutcome.ok sampleQuizA)).2.2.1 (by decide)).2

/-- A step that does not write the selected-quiz slot leaves it alone. -/
theorem stepDetail_selectedQuiz (s : PQState) (e : DetailEvent)
    (h : writesSelected e = false) : (stepDetail s e).selectedQuiz = s.selectedQuiz := by
  cases e with
  | start => rfl
  | complete => rfl
  | resolve r =>
      cases r with
      | ok q => simp [writesSelected] at h
      | httpErr d => rfl
      | netErr m => rfl

/-- An interleaving with no selected-quiz write leaves the slot alone. -/
theorem runDetail_selectedQuiz (l : List DetailEvent) (s : PQState)
    (h : ∀ e ∈ l, writesSelected e = false) :
    (runDetail l s).selectedQuiz = s.selectedQuiz := by
  induction l generalizing s with
  | nil => rfl
  | cons e rest ih =>
      have h1 : (runDetail (e :: rest) s) = runDetail rest (stepDetail s e) := rfl
      rw [h1, ih (stepDetail s e) (fun x hx => h x (List.mem_cons_of_mem e hx))]
      exact stepDetail_selectedQuiz s e (h e (List.mem_cons_self e rest))

/-- C9: with no request fencing, the last successful detail resolution in
an interleaving wins the selected-quiz slot: whatever steps precede it, if
no later step writes the slot, the final selected quiz is that
resolution's result — in particular, when call A's response resolves after
call B's, A's result stands regardless of issue order. -/
theorem runDetail_last_resolve_wins (s : PQState) (qa : Quiz)
    (pre post : List DetailEvent) (h : ∀ e ∈ post, writesSelected e = false) :
    (runDetail (pre ++ DetailEvent.resolve (FetchOutcome.ok qa) :: post) s).selectedQuiz =
      some qa := by
  have h1 : runDetail (pre ++ DetailEvent.resolve (FetchOutcome.ok qa) :: post) s =
      runDetail post (stepDetail (runDetail pre s) (DetailEvent.resolve (FetchOutcome.ok qa))) := by
    simp [runDetail, List.foldl_append]
  rw [h1, runDetail_selectedQuiz post _ h]
  rfl

/-- Witness for C9, the spec's race scenario: A issued before B, B resolves
and completes first, then A resolves — A's quiz ends up selected. -/
theorem runDetail_last_resolve_wins_witness :
    (runDetail [DetailEvent.start, DetailEvent.start,
      DetailEvent.resolve (FetchOutcome.ok sampleQuizB), DetailEvent.complete,
      DetailEvent.resolve (FetchOutcome.ok sampleQuizA), DetailEvent.complete]
      samplePQ).selectedQuiz = some sampleQuizA :=
  runDetail_last_resolve_wins samplePQ sampleQuizA
    [DetailEvent.start, DetailEvent.start,
      DetailEvent.resolve (FetchOutcome.ok sampleQuizB), DetailEvent.complete]
    [DetailEvent.complete] (by decide)

/-- C10: on a non-empty trimmed URL, the synchronous prefix of a generate
attempt clears the previously held quiz together with the error, before
any resolution; hence after a failed attempt the result slot is empty. -/
theorem handleGenerate_clears_result (s : GenState) (h : jsTrim s.url ≠ "") :
    (handleGenerateStart s).quizData = none ∧
    (handleGenerateStart s).error = none ∧
    (∀ d, (handleGenerate s (FetchOutcome.httpErr d)).quizData = none) ∧
    (∀ m, (handleGenerate s (FetchOutcome.netErr m)).quizData = none) := by
  refine ⟨rfl, rfl, ?_, ?_⟩
  · intro d
    simp [handleGenerate, h, handleGenerateStart]
  · intro m
    simp [handleGenerate, h, handleGenerateStart]

/-- Witness for C10: a failed generation from the wiki URL leaves no quiz
displayed. -/
theorem handleGenerate_clears_result_witness :
    (handleGenerate sampleGen (FetchOutcome.httpErr (some "boom"))).quizData = none :=
  (handleGenerate_clears_result sampleGen (by decide)).2.2.1 (some "boom")

end WikiQuiz
